import Mathlib

/-!
# SEN15901 weather-meter driver

A shallow embedding of `modules/sen15901/sen15901.c` (with the constants of
`include/sen15901.h`) and the properties of its measurement core: the
debounced pulse counters, the nearest-entry wind-vane decoder and the two
rate reads.

* `uint32_t` objects are natural numbers, every operation reduced modulo `2 ^ 32`.
* The file-scope counters and timestamps form the record `State`, passed explicitly.
* The platform calls (`xtimer_now_usec`, `xtimer_now`, `adc_sample`, `gpio_init`,
  `adc_init`, `gpio_init_int`) are not part of the driver: the value each call
  returns is an argument of the embedded function.
* `float` and `double` objects are the rational numbers they denote; every
  arithmetic result is rounded to 24 resp. 53 significant bits, to nearest, ties to even.
-/

namespace Sen15901

/-! ## Constants of `sen15901.h` and `sen15901.c` -/

/-- Tag of the wind vane, `#define GIROUETTE 0`. -/
def GIROUETTE : Int := 0
/-- Tag of the anemometer, `#define ANEMOMETRE 1`. -/
def ANEMOMETRE : Int := 1
/-- Tag of the rain gauge, `#define PLUVIOMETRE 2`. -/
def PLUVIOMETRE : Int := 2

/-- Named return values: `SEN15901_OK = 0`, the first enumerator. -/
def SEN15901_OK : Int := 0
/-- Second enumerator of the return-value `enum`. -/
def SEN15901_ERROR_ADC : Int := 1
/-- Third enumerator of the return-value `enum`. -/
def SEN15901_ERROR_GPIO : Int := 2
/-- Fourth enumerator of the return-value `enum`. -/
def SEN15901_ERROR_CNF : Int := 3
/-- Fifth enumerator of the return-value `enum`. -/
def SEN15901_ERROR_DEV : Int := 4

/-- Debounce threshold of the rain gauge, in clock ticks. -/
def DEBOUNCE_INTERVAL_PLUVIOMETRE : Nat := 10
/-- Debounce threshold of the anemometer, in clock ticks. -/
def DEBOUNCE_INTERVAL_ANEMOMETRE : Nat := 10

/-! ## Unsigned 32-bit arithmetic -/

/-- Number of values of a `uint32_t`. -/
def UINT32_MOD : Nat := 4294967296

/-- Subtraction of two `uint32_t` values, `a - b` wrapping modulo `2 ^ 32`. -/
def u32_sub (a b : Nat) : Nat :=
  (a % UINT32_MOD + (UINT32_MOD - b % UINT32_MOD)) % UINT32_MOD

/-- Post-increment of a `uint32_t` object, `x++` wrapping modulo `2 ^ 32`. -/
def u32_incr (a : Nat) : Nat := (a + 1) % UINT32_MOD

/-! ## Shared state -/

/-- The file-scope variables of `sen15901.c`. -/
structure State where
  last_pluviometre_tick : Nat
  last_anemometre_tick : Nat
  pluviometre_ticks : Nat
  anemometre_ticks : Nat
  last_anemometre_call : Nat
deriving DecidableEq

/-- Values of the file-scope variables at program start: all zero. -/
def State.init : State :=
  { last_pluviometre_tick := 0, last_anemometre_tick := 0,
    pluviometre_ticks := 0, anemometre_ticks := 0, last_anemometre_call := 0 }

/-! ## Edge interrupt handler -/

/-- The handler `cb_interrupts(arg)`; `current_time` is the value returned by
`xtimer_now_usec()`. The `printf` and LED toggle of an accepted edge are not modelled. -/
def cb_interrupts (arg : Int) (current_time : Nat) (s : State) : State :=
  if arg = PLUVIOMETRE then
    if u32_sub current_time s.last_pluviometre_tick > DEBOUNCE_INTERVAL_PLUVIOMETRE then
      { s with last_pluviometre_tick := current_time,
               pluviometre_ticks := u32_incr s.pluviometre_ticks }
    else s
  else if arg = ANEMOMETRE then
    if u32_sub current_time s.last_anemometre_tick > DEBOUNCE_INTERVAL_ANEMOMETRE then
      { s with last_anemometre_tick := current_time,
               anemometre_ticks := u32_incr s.anemometre_ticks }
    else s
  else s

/-- The state after the handler has run once for each timestamp of `ts`, in order,
all with the same tag. -/
def run_edges (arg : Int) (ts : List Nat) (s : State) : State :=
  ts.foldl (fun st t => cb_interrupts arg t st) s

/-- The `count` of the channel tagged `arg`. -/
def count (arg : Int) (s : State) : Nat :=
  if arg = PLUVIOMETRE then s.pluviometre_ticks else s.anemometre_ticks

/-- The `last_event_time` of the channel tagged `arg`. -/
def last_event_time (arg : Int) (s : State) : Nat :=
  if arg = PLUVIOMETRE then s.last_pluviometre_tick else s.last_anemometre_tick

/-- A timestamp `t` lies strictly more than the debounce interval after `p`. -/
def spaced (p t : Nat) : Prop := p + 10 < t

instance (p t : Nat) : Decidable (spaced p t) := by unfold spaced; infer_instance

/-! ## Floating-point arithmetic -/

/-- Number of binary digits of `n`, found by halving at most `fuel` times. -/
def bitsAux : Nat → Nat → Nat
  | 0, _ => 0
  | fuel + 1, n => if n = 0 then 0 else bitsAux fuel (n / 2) + 1

/-- Number of binary digits of `n`: `bits 0 = 0`, `bits 5 = 3`. -/
def bits (n : Nat) : Nat := bitsAux n n

/-- Binary exponent of a positive rational `q`: the `e` with `2 ^ e ≤ q < 2 ^ (e + 1)`.
The difference of the digit counts of numerator and denominator is `e` or `e + 1`. -/
def floorLog2 (q : ℚ) : Int :=
  let e : Int := (bits q.num.natAbs : Int) - (bits q.den : Int)
  if (2 : ℚ) ^ e ≤ q then e else e - 1

/-- Nearest integer to `q`, a tie going to the even neighbour. -/
def roundHalfEven (q : ℚ) : Int :=
  let f := ⌊q⌋
  if q - f < 1 / 2 then f
  else if 1 / 2 < q - f then f + 1
  else if f % 2 = 0 then f else f + 1

/-- Rounding of `q` to a binary floating-point number of `p` significant bits, to
nearest, ties to even. The exponent range is not bounded: no operation of the driver
leaves the normal range of its format on values a 32-bit counter or an ADC can supply. -/
def fround (p : Nat) (q : ℚ) : ℚ :=
  if q = 0 then 0
  else
    let u : ℚ := 2 ^ (floorLog2 |q| + 1 - (p : Int))
    roundHalfEven (q / u) * u

/-- Rounding to `float` (IEEE 754 binary32, 24 significant bits). -/
def f32 (q : ℚ) : ℚ := fround 24 q

/-- Rounding to `double` (IEEE 754 binary64, 53 significant bits). -/
def f64 (q : ℚ) : ℚ := fround 53 q

/-- Division of two `double` values. A zero divisor gives an infinity or a NaN,
which is no number: `none`. -/
def f64_div (x y : ℚ) : Option ℚ :=
  if y = 0 then none else some (f64 (x / y))

/-- Conversion of a floating value to `uint16_t`: the fractional part is discarded;
the result is defined only when the integral part is representable (C11 6.3.1.4),
`none` otherwise and for a value that is no number. -/
def to_uint16 : Option ℚ → Option Nat
  | none => none
  | some x =>
    let t : Int := if 0 ≤ x then ⌊x⌋ else -⌊-x⌋
    if 0 ≤ t ∧ t < 65536 then some t.toNat else none

/-! ## Device handle and initialisation -/

/-- The driver parameters `sen15901_params_t`; lines, modes and flanks are numbers. -/
structure sen15901_params_t where
  adc : Nat
  res : Nat
  girouette_pin : Nat
  girouette_mode : Nat
  anemometre_pin : Nat
  anemometre_mode : Nat
  anemometre_flank : Nat
  pluviometre_pin : Nat
  pluviometre_mode : Nat
  pluviometre_flank : Nat
deriving DecidableEq

/-- The device descriptor `sen15901_t`. -/
structure sen15901_t where
  params : sen15901_params_t
deriving DecidableEq

/-- The function `sen15901_init(dev, params)`: the returned pair is the return value and
the descriptor written by `memcpy`. The arguments `r_gpio`, `r_adc`, `r_anemometre`,
`r_pluviometre` are the values returned by `gpio_init`, `adc_init` and the two
`gpio_init_int` calls (a later call is not made once an earlier one has failed). -/
def sen15901_init (params : sen15901_params_t)
    (r_gpio r_adc r_anemometre r_pluviometre : Int) : Int × sen15901_t :=
  let dev : sen15901_t := { params := params }
  if r_gpio < 0 then ( SEN15901_ERROR_GPIO, dev)
  else if r_adc < 0 then (SEN15901_ERROR_ADC, dev)
  else if r_anemometre < 0 then ( SEN15901_ERROR_GPIO, dev)
  else if r_pluviometre < 0 then ( SEN15901_ERROR_GPIO, dev)
  else (SEN15901_OK, dev)

/-! ## Direction decoder -/

/-- The calibration table `adc_values`: each `double` constant of the initialiser
converted to `float`. -/
def adc_values : List ℚ :=
  [ f32 (f64 3143.44186),
    f32 (f64 1624.06276),
    f32 (f64 1845.45055),
    f32 (f64 335.096502),
    f32 (f64 372.363636),
    f32 (f64 263.664671),
    f32 (f64 738.622951),
    f32 (f64 506.166521),
    f32 (f64 1149.23741),
    f32 (f64 978.800609),
    f32 (f64 2520.61538),
    f32 (f64 2397.82421),
    f32 (f64 3780.92308),
    f32 (f64 3310.12126),
    f32 (f64 3549.13752),
    f32 (f64 2811.18193) ]

/-- The constant `angle_resolution = 22.5`, a `float`. -/
def angle_resolution : ℚ := f32 (f64 22.5)

/-- The value of `ADC_dif` in iteration `i` of the search loop: the `float` difference
`adc_values[i] - mesure`, negated when negative. -/
def ADC_dif (mesure : ℚ) (i : Nat) : ℚ :=
  let d := f32 (adc_values.getD i 0 - mesure)
  if d < 0 then -d else d

/-- One iteration of the search loop on the pair `(min_dif, index)`. -/
def girouette_step (mesure : ℚ) (acc : ℚ × Nat) (i : Nat) : ℚ × Nat :=
  if ADC_dif mesure i < acc.1 then (ADC_dif mesure i, i) else acc

/-- The value of `index` after the loop `for (i = 0; i < 16; i++)`, started from
`min_dif = 4095`, `index = 0`. -/
def girouette_index (mesure : ℚ) : Nat :=
  ((List.range 16).foldl (girouette_step mesure) (f32 4095, 0)).2

/-- The function `sen15901_get_girouette(dev, data)`: the returned pair is the return value
and the value stored in `*data`. The argument `sample` is the value returned by
`adc_sample`; `dev` is dereferenced without a check and only selects the ADC line. -/
def sen15901_get_girouette (sample : ℚ) : Int × Option Nat :=
  let mesure := f32 sample
  let index := girouette_index mesure
  (SEN15901_OK, to_uint16 (some (f32 (f32 (index : ℚ) * angle_resolution))))

/-! ## Rate reads -/

/-- The constant `ANEMOMETRE_SPEED_FOR_1_TICK_PER_SEC 2.4`, a `double`. -/
def ANEMOMETRE_SPEED_FOR_1_TICK_PER_SEC : ℚ := f64 2.4

/-- The constant `PLUVIOMETRE_MM_BY_TICK 0.2794`, a `double`. -/
def PLUVIOMETRE_MM_BY_TICK : ℚ := f64 0.2794

/-- Outcome of a rate read: the return value, the content of `*data` after the call
(`none`: no defined value) and the file-scope variables after the call. -/
structure Reading where
  ret : Int
  data : Option Nat
  state : State
deriving DecidableEq

/-- The function `sen15901_get_anemometre(dev, data)`. A null `dev` is `none`; `data` is the
content of `*data` before the call; `current_time` is the value returned by `xtimer_now()`. -/
def sen15901_get_anemometre (dev : Option sen15901_t) (data : Option Nat)
    (current_time : Nat) (s : State) : Reading :=
  match dev with
  | none => { ret := SEN15901_ERROR_DEV, data := data, state := s }
  | some _ =>
    { ret := SEN15901_OK
      data := to_uint16
        (f64_div (f64 (f64 (s.anemometre_ticks : ℚ) * ANEMOMETRE_SPEED_FOR_1_TICK_PER_SEC))
          (f64 (u32_sub current_time s.last_anemometre_call : ℚ)))
      state := { s with last_anemometre_call := current_time, anemometre_ticks := 0 } }

/-- The function `sen15901_get_pluviometre(dev, data)`. A null `dev` is `none`; `data` is the
content of `*data` before the call. The function reads no clock. -/
def sen15901_get_pluviometre (dev : Option sen15901_t) (data : Option Nat)
    (s : State) : Reading :=
  match dev with
  | none => { ret := SEN15901_ERROR_DEV, data := data, state := s }
  | some _ =>
    { ret := SEN15901_OK
      data := to_uint16 (some (f64 (f64 (s.pluviometre_ticks : ℚ) * PLUVIOMETRE_MM_BY_TICK)))
      state := { s with pluviometre_ticks := 0 } }

/-- A device descriptor with every parameter zero, for concrete evaluations. -/
def dev0 : sen15901_t :=
  { params := { adc := 0, res := 0, girouette_pin := 0, girouette_mode := 0,
                anemometre_pin := 0, anemometre_mode := 0, anemometre_flank := 0,
                pluviometre_pin := 0, pluviometre_mode := 0, pluviometre_flank := 0 } }

/-! ## Rounding: error bound, exactness on small integers, conversion to `uint16_t` -/

theorem bitsAux_zero (fuel : Nat) : bitsAux fuel 0 = 0 := by
  cases fuel <;> simp [bitsAux]

theorem bitsAux_bounds :
    ∀ fuel n, n ≤ fuel → n < 2 ^ bitsAux fuel n ∧ (n ≠ 0 → 2 ^ bitsAux fuel n ≤ 2 * n)
  | 0, n, h => by
    have hn : n = 0 := by omega
    subst hn
    simp [bitsAux]
  | fuel + 1, n, h => by
    by_cases hn : n = 0
    · subst hn
      simp [bitsAux]
    · have ih := bitsAux_bounds fuel (n / 2) (by omega)
      simp only [bitsAux, if_neg hn, pow_succ]
      refine ⟨by omega, fun _ => ?_⟩
      by_cases h2 : n / 2 = 0
      · rw [h2, bitsAux_zero]
        omega
      · have h3 := ih.2 h2
        omega

theorem bits_bounds (n : Nat) : n < 2 ^ bits n ∧ (n ≠ 0 → 2 ^ bits n ≤ 2 * n) :=
  bitsAux_bounds n n (Nat.le_refl n)

theorem two_zpow_floorLog2_le {a : ℚ} (ha : 0 < a) : (2 : ℚ) ^ floorLog2 a ≤ a := by
  unfold floorLog2
  simp only
  split_ifs with h
  · exact h
  · have hnum : 0 < a.num := Rat.num_pos.mpr ha
    have hn0 : a.num.natAbs ≠ 0 := by omega
    have hb1 := (bits_bounds a.num.natAbs).2 hn0
    have hb2 := (bits_bounds a.den).1
    have hcast : ((a.num.natAbs : ℕ) : ℚ) = (a.num : ℚ) := by
      rw [← Int.cast_natCast, Int.natAbs_of_nonneg hnum.le]
    have hden : (0 : ℚ) < a.den := by exact_mod_cast a.den_pos
    have ha_eq : a = (a.num.natAbs : ℚ) / (a.den : ℚ) := by
      rw [hcast]; exact (Rat.num_div_den a).symm
    have e1 : (2 : ℚ) ^ ((bits a.num.natAbs : ℤ) - (bits a.den : ℤ) - 1)
        = (2 : ℚ) ^ bits a.num.natAbs / ((2 : ℚ) ^ bits a.den * 2) := by
      rw [zpow_sub₀ (by norm_num), zpow_sub₀ (by norm_num), zpow_natCast, zpow_natCast, zpow_one]
      field_simp
    rw [e1]
    rw [div_le_iff₀ (by positivity)]
    have hb1q : ((2 : ℚ) ^ bits a.num.natAbs) ≤ 2 * (a.num.natAbs : ℚ) := by exact_mod_cast hb1
    have hb2q : (a.den : ℚ) ≤ (2 : ℚ) ^ bits a.den := by exact_mod_cast hb2.le
    have hnq : (0 : ℚ) ≤ (a.num.natAbs : ℚ) := Nat.cast_nonneg _
    calc (2 : ℚ) ^ bits a.num.natAbs ≤ 2 * (a.num.natAbs : ℚ) := hb1q
      _ = (a.num.natAbs : ℚ) / (a.den : ℚ) * ((a.den : ℚ) * 2) := by field_simp; ring
      _ ≤ (a.num.natAbs : ℚ) / (a.den : ℚ) * ((2 : ℚ) ^ bits a.den * 2) := by
          apply mul_le_mul_of_nonneg_left _ (div_nonneg hnq hden.le)
          linarith
      _ = a * ((2 : ℚ) ^ bits a.den * 2) := by rw [← ha_eq]

theorem lt_two_zpow_floorLog2_succ {a : ℚ} (ha : 0 < a) : a < (2 : ℚ) ^ (floorLog2 a + 1) := by
  unfold floorLog2
  simp only
  split_ifs with h
  · have hnum : 0 < a.num := Rat.num_pos.mpr ha
    have hb1 := (bits_bounds a.num.natAbs).1
    have hb2 := (bits_bounds a.den).2 a.den_nz
    have hcast : ((a.num.natAbs : ℕ) : ℚ) = (a.num : ℚ) := by
      rw [← Int.cast_natCast, Int.natAbs_of_nonneg hnum.le]
    have hden : (0 : ℚ) < a.den := by exact_mod_cast a.den_pos
    have ha_eq : a = (a.num.natAbs : ℚ) / (a.den : ℚ) := by
      rw [hcast]; exact (Rat.num_div_den a).symm
    have e1 : (2 : ℚ) ^ ((bits a.num.natAbs : ℤ) - (bits a.den : ℤ) + 1)
        = (2 : ℚ) ^ bits a.num.natAbs * 2 / (2 : ℚ) ^ bits a.den := by
      rw [zpow_add₀ (by norm_num), zpow_sub₀ (by norm_num), zpow_natCast, zpow_natCast, zpow_one]
      field_simp
    have hb1q : (a.num.natAbs : ℚ) < (2 : ℚ) ^ bits a.num.natAbs := by exact_mod_cast hb1
    have hb2q : (2 : ℚ) ^ bits a.den ≤ 2 * (a.den : ℚ) := by exact_mod_cast hb2
    have hpd : (0 : ℚ) < (2 : ℚ) ^ bits a.den := by positivity
    rw [e1, lt_div_iff₀ hpd]
    calc a * (2 : ℚ) ^ bits a.den ≤ a * (2 * (a.den : ℚ)) :=
          mul_le_mul_of_nonneg_left hb2q ha.le
      _ = (a.num.natAbs : ℚ) * 2 := by
          rw [hcast, ← Rat.mul_den_eq_num a]
          ring
      _ < (2 : ℚ) ^ bits a.num.natAbs * 2 := by linarith
  · rw [sub_add_cancel]
    exact not_le.mp h

theorem roundHalfEven_err (z : ℚ) : |(roundHalfEven z : ℚ) - z| ≤ 1 / 2 := by
  have h1 := Int.floor_le z
  have h2 := Int.lt_floor_add_one z
  unfold roundHalfEven
  simp only
  rw [abs_le]
  split_ifs <;> push_cast <;> constructor <;> linarith

theorem fround_err (p : Nat) {q : ℚ} (hq : q ≠ 0) :
    |fround p q - q| ≤ |q| * 2 ^ (-(p : ℤ)) := by
  unfold fround
  rw [if_neg hq]
  simp only
  have hu : (0 : ℚ) < 2 ^ (floorLog2 |q| + 1 - (p : ℤ)) := by positivity
  have hle := two_zpow_floorLog2_le (abs_pos.mpr hq)
  have herr := roundHalfEven_err (q / 2 ^ (floorLog2 |q| + 1 - (p : ℤ)))
  set u : ℚ := 2 ^ (floorLog2 |q| + 1 - (p : ℤ)) with hudef
  have e1 : (roundHalfEven (q / u) : ℚ) * u - q = ((roundHalfEven (q / u) : ℚ) - q / u) * u := by
    field_simp
  rw [e1, abs_mul, abs_of_pos hu]
  have e2 : u = 2 * ((2 : ℚ) ^ floorLog2 |q| * 2 ^ (-(p : ℤ))) := by
    rw [hudef, ← zpow_add₀ (by norm_num : (2 : ℚ) ≠ 0), ← zpow_one_add₀ (by norm_num : (2 : ℚ) ≠ 0)]
    congr 1
    ring
  have hp : (0 : ℚ) < 2 ^ (-(p : ℤ)) := by positivity
  calc |(roundHalfEven (q / u) : ℚ) - q / u| * u ≤ 1 / 2 * u :=
        mul_le_mul_of_nonneg_right herr hu.le
    _ = (2 : ℚ) ^ floorLog2 |q| * 2 ^ (-(p : ℤ)) := by rw [e2]; ring
    _ ≤ |q| * 2 ^ (-(p : ℤ)) := mul_le_mul_of_nonneg_right hle hp.le

theorem fround_zero (p : Nat) : fround p 0 = 0 := by
  simp [fround]

theorem fround_ne_zero {p : Nat} (hp : 1 ≤ p) {q : ℚ} (hq : q ≠ 0) : fround p q ≠ 0 := by
  intro h0
  have herr := fround_err p hq
  rw [h0, zero_sub, abs_neg] at herr
  have hq' : 0 < |q| := abs_pos.mpr hq
  have h2 : (2 : ℚ) ^ (-(p : ℤ)) ≤ 1 / 2 := by
    rw [zpow_neg, zpow_natCast, one_div]
    apply inv_anti₀ (by norm_num)
    calc (2 : ℚ) = 2 ^ 1 := by norm_num
      _ ≤ 2 ^ p := pow_le_pow_right₀ (by norm_num) hp
  nlinarith


theorem floorLog2_lt {p : Nat} {a : ℚ} (ha : 0 < a) (hlt : a < 2 ^ p) : floorLog2 a < (p : ℤ) := by
  by_contra hcon
  have hge : (p : ℤ) ≤ floorLog2 a := not_lt.mp hcon
  have h1 : (2 : ℚ) ^ (p : ℤ) ≤ 2 ^ floorLog2 a := zpow_le_zpow_right₀ (by norm_num) hge
  have h2 := two_zpow_floorLog2_le ha
  rw [zpow_natCast] at h1
  linarith

theorem roundHalfEven_intCast (z : ℤ) : roundHalfEven (z : ℚ) = z := by
  unfold roundHalfEven
  simp

theorem fround_natCast (p n : Nat) (h : n < 2 ^ p) : fround p (n : ℚ) = n := by
  by_cases hn : n = 0
  · subst hn
    simp [fround_zero]
  · have hq : (n : ℚ) ≠ 0 := Nat.cast_ne_zero.mpr hn
    have hpos : (0 : ℚ) < n := by positivity
    have hlt : (n : ℚ) < 2 ^ p := by exact_mod_cast h
    unfold fround
    rw [if_neg hq]
    simp only
    rw [abs_of_pos hpos]
    have he := floorLog2_lt hpos hlt
    obtain ⟨t, ht⟩ : ∃ t : ℕ, floorLog2 (n : ℚ) + 1 - (p : ℤ) = -(t : ℤ) :=
      ⟨((p : ℤ) - 1 - floorLog2 (n : ℚ)).toNat, by
        rw [Int.toNat_of_nonneg (by omega)]
        ring⟩
    rw [ht, zpow_neg, zpow_natCast]
    have e1 : (n : ℚ) / ((2 : ℚ) ^ t)⁻¹ = (((n * 2 ^ t : ℕ) : ℤ) : ℚ) := by
      push_cast
      field_simp
    rw [e1, roundHalfEven_intCast]
    push_cast
    field_simp

theorem to_uint16_of_floor {x : ℚ} {n : Nat} (h1 : (n : ℚ) ≤ x) (h2 : x < n + 1)
    (hn : n < 65536) : to_uint16 (some x) = some n := by
  have hx : 0 ≤ x := le_trans (Nat.cast_nonneg n) h1
  have hfl : ⌊x⌋ = (n : ℤ) := by
    rw [Int.floor_eq_iff]
    constructor
    · exact_mod_cast h1
    · exact_mod_cast h2
  unfold to_uint16
  simp only [if_pos hx, hfl]
  rw [if_pos ⟨by omega, by omega⟩]
  simp

theorem to_uint16_of_large {x : ℚ} (h : 65536 ≤ x) : to_uint16 (some x) = none := by
  have hx : 0 ≤ x := le_trans (by norm_num) h
  have hfl : (65536 : ℤ) ≤ ⌊x⌋ := by
    rw [Int.le_floor]
    exact_mod_cast h
  unfold to_uint16
  simp only [if_pos hx]
  rw [if_neg]
  omega

/-! ## Pulse counter -/

theorem u32_sub_of_spaced {p t : Nat} (h : spaced p t) (ht : t < UINT32_MOD) :
    u32_sub t p = t - p := by
  simp only [spaced, u32_sub, UINT32_MOD] at *
  omega

theorem cb_interrupts_accept {arg : Int} (harg : arg = PLUVIOMETRE ∨ arg = ANEMOMETRE)
    (t : Nat) (s : State) (h : 10 < u32_sub t (last_event_time arg s)) :
    count arg (cb_interrupts arg t s) = u32_incr (count arg s) ∧
      last_event_time arg (cb_interrupts arg t s) = t := by
  rcases harg with rfl | rfl
  · simp only [last_event_time, if_true] at h
    simp [cb_interrupts, count, last_event_time, DEBOUNCE_INTERVAL_PLUVIOMETRE, h]
  · have hne : ANEMOMETRE ≠ PLUVIOMETRE := by decide
    simp only [last_event_time, if_neg hne] at h
    simp [cb_interrupts, count, last_event_time, DEBOUNCE_INTERVAL_ANEMOMETRE, h, hne]

theorem cb_interrupts_reject {arg : Int} (harg : arg = PLUVIOMETRE ∨ arg = ANEMOMETRE)
    (t : Nat) (s : State) (h : u32_sub t (last_event_time arg s) ≤ 10) :
    cb_interrupts arg t s = s := by
  rcases harg with rfl | rfl
  · simp only [last_event_time, if_true] at h
    simp [cb_interrupts, DEBOUNCE_INTERVAL_PLUVIOMETRE, Nat.not_lt.mpr h]
  · have hne : ANEMOMETRE ≠ PLUVIOMETRE := by decide
    simp only [last_event_time, if_neg hne] at h
    simp [cb_interrupts, DEBOUNCE_INTERVAL_ANEMOMETRE, Nat.not_lt.mpr h, hne]

theorem chain_spaced_length {B : Nat} (ts : List Nat) :
    ∀ p, List.Chain spaced p ts → (∀ t ∈ ts, t < B) → p < B → p + 11 * ts.length < B := by
  induction ts with
  | nil => intro p _ _ hp; simpa using hp
  | cons t ts ih =>
    intro p hc hB _
    rw [List.chain_cons] at hc
    have h1 := ih t hc.2 (fun x hx => hB x (List.mem_cons_of_mem _ hx))
      (hB t (List.mem_cons_self _ _))
    have h2 : p + 10 < t := hc.1
    simp only [List.length_cons]
    omega

theorem chain_elapsed_of_chain_spaced (ts : List Nat) :
    ∀ p, List.Chain spaced p ts → (∀ t ∈ ts, t < UINT32_MOD) →
      List.Chain (fun a t => 10 < u32_sub t a) p ts := by
  induction ts with
  | nil => intro p _ _; exact List.Chain.nil
  | cons t ts ih =>
    intro p hc hB
    rw [List.chain_cons] at hc
    have ht : t < UINT32_MOD := hB t (List.mem_cons_self _ _)
    have hsp : p + 10 < t := hc.1
    refine List.Chain.cons ?_ (ih t hc.2 (fun x hx => hB x (List.mem_cons_of_mem _ hx)))
    rw [u32_sub_of_spaced hc.1 ht]
    omega

/-- Edges whose unsigned 32-bit elapsed time since the previous accepted edge exceeds 10 are
all accepted, also across a wrap of the clock: the count grows by their number, modulo
`2 ^ 32`. -/
theorem run_edges_count {arg : Int} (harg : arg = PLUVIOMETRE ∨ arg = ANEMOMETRE)
    (ts : List Nat) :
    ∀ s, List.Chain (fun a t => 10 < u32_sub t a) (last_event_time arg s) ts →
      count arg s < UINT32_MOD →
      count arg (run_edges arg ts s) = (count arg s + ts.length) % UINT32_MOD := by
  induction ts with
  | nil =>
    intro s _ hs
    simpa [run_edges] using (Nat.mod_eq_of_lt hs).symm
  | cons t ts ih =>
    intro s hc hs
    rw [List.chain_cons] at hc
    have hacc := cb_interrupts_accept harg t s hc.1
    have hrun : run_edges arg (t :: ts) s = run_edges arg ts (cb_interrupts arg t s) := rfl
    have hlt : count arg (cb_interrupts arg t s) < UINT32_MOD := by
      rw [hacc.1]
      exact Nat.mod_lt _ (by decide)
    rw [hrun, ih (cb_interrupts arg t s) (by rw [hacc.2]; exact hc.2) hlt, hacc.1]
    simp only [u32_incr, UINT32_MOD, List.length_cons]
    omega

/-- C1 (as stated): a first edge within the debounce interval of clock value 0 is dropped.
The one-edge sequence `[5]` meets the spacing condition, yet the count stays 0. -/
theorem first_edge_dropped :
    List.Chain' spaced [5] ∧ (∀ t ∈ [5], t < UINT32_MOD) ∧
      count PLUVIOMETRE (run_edges PLUVIOMETRE [5] State.init) = 0 ∧
      count ANEMOMETRE (run_edges ANEMOMETRE [5] State.init) = 0 ∧
      count PLUVIOMETRE (run_edges PLUVIOMETRE [5] State.init) ≠ [5].length :=
  ⟨List.chain'_singleton 5, by decide, by decide, by decide, by decide⟩

/-- C1 (amended): from the initial state, when every timestamp is a 32-bit value lying
strictly more than 10 after the previous one, the first one strictly more than 10 after
the initial `last_event_time` 0, the count of the channel after the `N` handler calls is `N`. -/
theorem count_eq_length_of_spaced {arg : Int} (harg : arg = PLUVIOMETRE ∨ arg = ANEMOMETRE)
    (ts : List Nat) (h32 : ∀ t ∈ ts, t < UINT32_MOD) (hsp : List.Chain spaced 0 ts) :
    count arg (run_edges arg ts State.init) = ts.length := by
  have h0 : last_event_time arg State.init = 0 := by
    simp [last_event_time, State.init]
  have hc0 : count arg State.init = 0 := by
    simp [count, State.init]
  have hlen := chain_spaced_length ts 0 hsp h32 (by decide)
  rw [run_edges_count harg ts State.init
    (by rw [h0]; exact chain_elapsed_of_chain_spaced ts 0 hsp h32) (by rw [hc0]; decide),
    hc0, Nat.zero_add]
  apply Nat.mod_eq_of_lt
  omega

/-- Witness of C1: three edges at 11, 22 and `2 ^ 32 - 1`. -/
theorem count_eq_length_of_spaced_witness :
    (∀ t ∈ [11, 22, 4294967295], t < UINT32_MOD) ∧
      List.Chain spaced 0 [11, 22, 4294967295] ∧
      count ANEMOMETRE (run_edges ANEMOMETRE [11, 22, 4294967295] State.init) =
        [11, 22, 4294967295].length :=
  ⟨by decide, by simp [spaced],
    count_eq_length_of_spaced (Or.inr rfl) [11, 22, 4294967295] (by decide)
      (by simp [spaced])⟩

/-- C2: a handler call whose unsigned 32-bit elapsed time since the channel's last accepted
edge is at most 10 changes neither the count nor the last event time of the channel;
it leaves the whole state as it was. -/
theorem bounce_discarded {arg : Int} (harg : arg = PLUVIOMETRE ∨ arg = ANEMOMETRE)
    (current_time : Nat) (s : State)
    (h : u32_sub current_time (last_event_time arg s) ≤ 10) :
    count arg (cb_interrupts arg current_time s) = count arg s ∧
      last_event_time arg (cb_interrupts arg current_time s) = last_event_time arg s ∧
      cb_interrupts arg current_time s = s := by
  rw [cb_interrupts_reject harg current_time s h]
  exact ⟨rfl, rfl, rfl⟩

/-- Witness of C2: an edge 10 ticks after the last accepted edge at 1000. -/
theorem bounce_discarded_witness :
    u32_sub 1010 (last_event_time PLUVIOMETRE
        { State.init with last_pluviometre_tick := 1000, pluviometre_ticks := 3 }) ≤ 10 ∧
    count PLUVIOMETRE (cb_interrupts PLUVIOMETRE 1010
        { State.init with last_pluviometre_tick := 1000, pluviometre_ticks := 3 }) =
        count PLUVIOMETRE { State.init with last_pluviometre_tick := 1000, pluviometre_ticks := 3 } ∧
      last_event_time PLUVIOMETRE (cb_interrupts PLUVIOMETRE 1010
        { State.init with last_pluviometre_tick := 1000, pluviometre_ticks := 3 }) =
        last_event_time PLUVIOMETRE
          { State.init with last_pluviometre_tick := 1000, pluviometre_ticks := 3 } ∧
      cb_interrupts PLUVIOMETRE 1010
        { State.init with last_pluviometre_tick := 1000, pluviometre_ticks := 3 } =
        { State.init with last_pluviometre_tick := 1000, pluviometre_ticks := 3 } :=
  ⟨by decide, bounce_discarded (Or.inl rfl) 1010
    { State.init with last_pluviometre_tick := 1000, pluviometre_ticks := 3 } (by decide)⟩

/-! ## Rate reads: effect on the state and return values -/

/-- C9: a speed read on a non-null device zeroes the speed count and stores the clock value
it read in `last_anemometre_call`, leaving the rain count and both last-event times as
they were; a rain read zeroes the rain count and leaves the speed count, the time of the
last speed read and both last-event times as they were; with a null device either read
returns the device error and changes neither the state nor `*data`. -/
theorem read_resets_own_channel (dev : sen15901_t) (data : Option Nat) (current_time : Nat)
    (s : State) :
    ((sen15901_get_anemometre (some dev) data current_time s).state.anemometre_ticks = 0 ∧
      (sen15901_get_anemometre (some dev) data current_time s).state.last_anemometre_call
        = current_time ∧
      (sen15901_get_anemometre (some dev) data current_time s).state.pluviometre_ticks
        = s.pluviometre_ticks ∧
      (sen15901_get_anemometre (some dev) data current_time s).state.last_anemometre_tick
        = s.last_anemometre_tick ∧
      (sen15901_get_anemometre (some dev) data current_time s).state.last_pluviometre_tick
        = s.last_pluviometre_tick) ∧
    ((sen15901_get_pluviometre (some dev) data s).state.pluviometre_ticks = 0 ∧
      (sen15901_get_pluviometre (some dev) data s).state.anemometre_ticks
        = s.anemometre_ticks ∧
      (sen15901_get_pluviometre (some dev) data s).state.last_anemometre_call
        = s.last_anemometre_call ∧
      (sen15901_get_pluviometre (some dev) data s).state.last_anemometre_tick
        = s.last_anemometre_tick ∧
      (sen15901_get_pluviometre (some dev) data s).state.last_pluviometre_tick
        = s.last_pluviometre_tick) ∧
    sen15901_get_anemometre none data current_time s
      = { ret := SEN15901_ERROR_DEV, data := data, state := s } ∧
    sen15901_get_pluviometre none data s
      = { ret := SEN15901_ERROR_DEV, data := data, state := s } :=
  ⟨⟨rfl, rfl, rfl, rfl, rfl⟩, ⟨rfl, rfl, rfl, rfl, rfl⟩, rfl, rfl⟩

/-- C8 (code at the failing inputs): every error path returns a positive enumerator, not a
value below 0: a null device gives 4 in both rate reads, a failed `gpio_init` or
`gpio_init_int` gives 2 and a failed `adc_init` gives 1 in `sen15901_init`; success gives 0. -/
theorem error_returns_positive (params : sen15901_params_t) (data : Option Nat)
    (current_time : Nat) (s : State) :
    (sen15901_get_anemometre none data current_time s).ret = 4 ∧
    (sen15901_get_pluviometre none data s).ret = 4 ∧
    (sen15901_init params (-1) 0 0 0).1 = 2 ∧
    (sen15901_init params 0 (-1) 0 0).1 = 1 ∧
    (sen15901_init params 0 0 (-1) 0).1 = 2 ∧
    (sen15901_init params 0 0 0 (-1)).1 = 2 ∧
    (sen15901_init params 0 0 0 0).1 = 0 ∧
    ¬ (sen15901_get_anemometre none data current_time s).ret < 0 ∧
    ¬ (sen15901_get_pluviometre none data s).ret < 0 ∧
    ¬ (sen15901_init params (-1) 0 0 0).1 < 0 ∧
    ¬ (sen15901_init params 0 (-1) 0 0).1 < 0 :=
  ⟨rfl, rfl, rfl, rfl, rfl, rfl, rfl, (by decide : ¬ (4 : Int) < 0),
    (by decide : ¬ (4 : Int) < 0), (by decide : ¬ (2 : Int) < 0),
    (by decide : ¬ (1 : Int) < 0)⟩

/-- C5 (code at the failing input): with 10 pulses counted and the previous speed read
5 000 000 microsecond ticks (5 seconds) earlier, the speed read stores 0: the quotient is
taken by the elapsed ticks, `10 * 2.4 / 5000000`, not by the elapsed seconds. -/
theorem speed_divides_by_ticks :
    sen15901_get_anemometre (some dev0) none 6000000
        { State.init with anemometre_ticks := 10, last_anemometre_call := 1000000 }
      = { ret := SEN15901_OK, data := some 0,
          state := { State.init with anemometre_ticks := 0, last_anemometre_call := 6000000 } } ∧
    (sen15901_get_anemometre (some dev0) none 6000000
        { State.init with anemometre_ticks := 10, last_anemometre_call := 1000000 }).data
      ≠ some 4 ∧
    (sen15901_get_anemometre (some dev0) none 6000000
        { State.init with anemometre_ticks := 10, last_anemometre_call := 1000000 }).data
      ≠ some 5 := by
  decide!

theorem to_uint16_zero : to_uint16 (some 0) = some 0 := by decide!

theorem f64_natCast_ne_zero {n : Nat} (hn : n ≠ 0) : f64 (n : ℚ) ≠ 0 :=
  fround_ne_zero (by decide) (Nat.cast_ne_zero.mpr hn)

/-- C6 (as stated): two speed reads that see the same clock value 7: the elapsed time of
the second is 0, and it returns `SEN15901_OK`, none of the error values and nothing below 0;
the quotient by zero is no number and no defined value is stored. -/
theorem same_tick_read_returns_ok :
    u32_sub 7 (sen15901_get_anemometre (some dev0) none 7 State.init).state.last_anemometre_call
      = 0 ∧
    (sen15901_get_anemometre (some dev0)
        (sen15901_get_anemometre (some dev0) none 7 State.init).data 7
        (sen15901_get_anemometre (some dev0) none 7 State.init).state).ret = SEN15901_OK ∧
    ¬ (sen15901_get_anemometre (some dev0)
        (sen15901_get_anemometre (some dev0) none 7 State.init).data 7
        (sen15901_get_anemometre (some dev0) none 7 State.init).state).ret < 0 ∧
    (sen15901_get_anemometre (some dev0)
        (sen15901_get_anemometre (some dev0) none 7 State.init).data 7
        (sen15901_get_anemometre (some dev0) none 7 State.init).state).ret
      ∉ [SEN15901_ERROR_ADC, SEN15901_ERROR_GPIO, SEN15901_ERROR_CNF, SEN15901_ERROR_DEV] ∧
    (sen15901_get_anemometre (some dev0)
        (sen15901_get_anemometre (some dev0) none 7 State.init).data 7
        (sen15901_get_anemometre (some dev0) none 7 State.init).state).data = none := by
  decide!

/-- C6 (amended): on a non-null device, a rain read directly after a rain read returns
`SEN15901_OK` and stores 0; a speed read directly after a speed read returns
`SEN15901_OK` whatever the two clock values, and stores 0 whenever the two clock values
differ modulo `2 ^ 32`. -/
theorem second_read_zero (dev : sen15901_t) (data : Option Nat) (t1 t2 : Nat) (s : State) :
    (sen15901_get_pluviometre (some dev) (sen15901_get_pluviometre (some dev) data s).data
        (sen15901_get_pluviometre (some dev) data s).state).ret = SEN15901_OK ∧
    (sen15901_get_pluviometre (some dev) (sen15901_get_pluviometre (some dev) data s).data
        (sen15901_get_pluviometre (some dev) data s).state).data = some 0 ∧
    (sen15901_get_anemometre (some dev) (sen15901_get_anemometre (some dev) data t1 s).data t2
        (sen15901_get_anemometre (some dev) data t1 s).state).ret = SEN15901_OK ∧
    (u32_sub t2 t1 ≠ 0 →
      (sen15901_get_anemometre (some dev) (sen15901_get_anemometre (some dev) data t1 s).data t2
        (sen15901_get_anemometre (some dev) data t1 s).state).data = some 0) := by
  refine ⟨rfl, ?_, rfl, fun hne => ?_⟩
  · simp only [sen15901_get_pluviometre, Nat.cast_zero, f64, fround_zero, zero_mul]
    exact to_uint16_zero
  · have hy := f64_natCast_ne_zero hne
    simp only [sen15901_get_anemometre, Nat.cast_zero, f64_div]
    rw [if_neg hy]
    simp only [f64, fround_zero, zero_mul, zero_div]
    exact to_uint16_zero

/-- Witness of C6: reads at clock values 7 and 9 on a state with pending counts. -/
theorem second_read_zero_witness :
    u32_sub 9 7 ≠ 0 ∧
    (sen15901_get_pluviometre (some dev0) (sen15901_get_pluviometre (some dev0) none
          { State.init with pluviometre_ticks := 3, anemometre_ticks := 4 }).data
        (sen15901_get_pluviometre (some dev0) none
          { State.init with pluviometre_ticks := 3, anemometre_ticks := 4 }).state).data
        = some 0 ∧
    (sen15901_get_anemometre (some dev0) (sen15901_get_anemometre (some dev0) none 7
          { State.init with pluviometre_ticks := 3, anemometre_ticks := 4 }).data 9
        (sen15901_get_anemometre (some dev0) none 7
          { State.init with pluviometre_ticks := 3, anemometre_ticks := 4 }).state).data
        = some 0 :=
  ⟨by decide,
    (second_read_zero dev0 none 7 9
      { State.init with pluviometre_ticks := 3, anemometre_ticks := 4 }).2.1,
    (second_read_zero dev0 none 7 9
      { State.init with pluviometre_ticks := 3, anemometre_ticks := 4 }).2.2.2 (by decide)⟩

/-! ## Rain read: the stored value -/

theorem PLUVIOMETRE_MM_BY_TICK_bounds :
    (2794 : ℚ) / 10000 - 2 / 10 ^ 17 < PLUVIOMETRE_MM_BY_TICK ∧
      PLUVIOMETRE_MM_BY_TICK < 2794 / 10000 := by
  decide!

theorem two_zpow_neg_53_le : (2 : ℚ) ^ (-((53 : ℕ) : ℤ)) ≤ 1 / 10 ^ 15 := by
  rw [zpow_neg, zpow_natCast]
  norm_num

theorem f64_rel_err {q : ℚ} (hq : 0 < q) :
    q - q / 10 ^ 15 ≤ f64 q ∧ f64 q ≤ q + q / 10 ^ 15 := by
  have herr := fround_err 53 hq.ne'
  rw [abs_of_pos hq, abs_le] at herr
  have hmul : q * (2 : ℚ) ^ (-((53 : ℕ) : ℤ)) ≤ q * (1 / 10 ^ 15) :=
    mul_le_mul_of_nonneg_left two_zpow_neg_53_le hq.le
  have e : q * (1 / 10 ^ 15) = q / 10 ^ 15 := by ring
  rw [e] at hmul
  unfold f64
  generalize q * (2 : ℚ) ^ (-((53 : ℕ) : ℤ)) = d at herr hmul
  obtain ⟨h1, h2⟩ := herr
  constructor <;> linarith

theorem rain_read_truncates (dev : sen15901_t) (data : Option Nat) (s : State)
    (hc : s.pluviometre_ticks < 234560) (h5 : ¬ 5000 ∣ s.pluviometre_ticks) :
    (sen15901_get_pluviometre (some dev) data s).data
      = some (s.pluviometre_ticks * 2794 / 10000) := by
  have hc53 : s.pluviometre_ticks < 2 ^ 53 := lt_trans hc (by norm_num)
  have hfc : f64 (s.pluviometre_ticks : ℚ) = s.pluviometre_ticks :=
    fround_natCast 53 _ hc53
  have hcpos : 0 < s.pluviometre_ticks := by
    rcases Nat.eq_zero_or_pos s.pluviometre_ticks with h0 | h0
    · exact absurd (h0 ▸ dvd_zero 5000) h5
    · exact h0
  simp only [sen15901_get_pluviometre, hfc]
  generalize s.pluviometre_ticks = c at *
  obtain ⟨hk1, hk2⟩ := PLUVIOMETRE_MM_BY_TICK_bounds
  have hcq : (0 : ℚ) < c := by exact_mod_cast hcpos
  have hcq' : (c : ℚ) ≤ 234559 := by
    have : c ≤ 234559 := by omega
    exact_mod_cast this
  have hkpos : (0 : ℚ) < PLUVIOMETRE_MM_BY_TICK := lt_trans (by norm_num) hk1
  have hy : (0 : ℚ) < c * PLUVIOMETRE_MM_BY_TICK := mul_pos hcq hkpos
  obtain ⟨he1, he2⟩ := f64_rel_err hy
  have hyu : (c : ℚ) * PLUVIOMETRE_MM_BY_TICK ≤ c * (2794 / 10000) :=
    mul_le_mul_of_nonneg_left hk2.le hcq.le
  have hyl : (c : ℚ) * (2794 / 10000 - 2 / 10 ^ 17) ≤ c * PLUVIOMETRE_MM_BY_TICK :=
    mul_le_mul_of_nonneg_left hk1.le hcq.le
  have hdm : c * 2794 = 10000 * (c * 2794 / 10000) + c * 2794 % 10000 :=
    (Nat.div_add_mod (c * 2794) 10000).symm
  have hr1 : 1 ≤ c * 2794 % 10000 := by omega
  have hr2 : c * 2794 % 10000 ≤ 9999 := by omega
  have hq : c * 2794 / 10000 < 65536 := by omega
  have hdmq : (c : ℚ) * 2794 = 10000 * ((c * 2794 / 10000 : ℕ) : ℚ) + ((c * 2794 % 10000 : ℕ) : ℚ) := by
    exact_mod_cast hdm
  have hr1q : (1 : ℚ) ≤ ((c * 2794 % 10000 : ℕ) : ℚ) := by exact_mod_cast hr1
  have hr2q : ((c * 2794 % 10000 : ℕ) : ℚ) ≤ 9999 := by exact_mod_cast hr2
  apply to_uint16_of_floor _ _ hq
  · linarith
  · linarith

theorem rain_read_out_of_range (dev : sen15901_t) (data : Option Nat) (s : State)
    (hc : 234560 ≤ s.pluviometre_ticks) :
    (sen15901_get_pluviometre (some dev) data s).data = none := by
  simp only [sen15901_get_pluviometre]
  generalize s.pluviometre_ticks = c at *
  obtain ⟨hk1, _⟩ := PLUVIOMETRE_MM_BY_TICK_bounds
  have hcq : (234560 : ℚ) ≤ c := by exact_mod_cast hc
  have hcpos : (0 : ℚ) < c := lt_of_lt_of_le (by norm_num) hcq
  obtain ⟨ha, _⟩ := f64_rel_err hcpos
  have ha' : (234559999 : ℚ) / 1000 ≤ f64 (c : ℚ) := by linarith
  have hk' : (27939999 : ℚ) / 100000000 ≤ PLUVIOMETRE_MM_BY_TICK := by linarith
  have hy : (234559999 : ℚ) / 1000 * (27939999 / 100000000)
      ≤ f64 (c : ℚ) * PLUVIOMETRE_MM_BY_TICK :=
    mul_le_mul ha' hk' (by norm_num) (le_trans (by norm_num) ha')
  have hypos : (0 : ℚ) < f64 (c : ℚ) * PLUVIOMETRE_MM_BY_TICK :=
    lt_of_lt_of_le (by norm_num) hy
  obtain ⟨hz, _⟩ := f64_rel_err hypos
  apply to_uint16_of_large
  linarith

theorem rain_read_multiples_of_5000 :
    ∀ m : Nat, m < 47 →
      to_uint16 (some (f64 (f64 ((5000 * m : Nat) : ℚ) * PLUVIOMETRE_MM_BY_TICK)))
        = some (5000 * m * 2794 / 10000 -
            (if 5000 * m ∈ [25000, 50000, 55000, 100000, 105000, 110000, 115000, 200000,
                205000, 210000, 215000, 220000, 225000, 230000] then 1 else 0)) := by
  decide!

/-- C7 (as stated): with 25000 rain ticks the read stores 6984, although `25000 * 0.2794`
is exactly 6985, which converts to 6985; with 234560 rain ticks the product is above 65535
and no defined value is stored. -/
theorem rain_read_not_exact :
    (sen15901_get_pluviometre (some dev0) none
        { State.init with pluviometre_ticks := 25000 }).data = some 6984 ∧
    (25000 : ℚ) * 0.2794 = 6985 ∧
    to_uint16 (some ((25000 : ℚ) * 0.2794)) = some 6985 ∧
    (sen15901_get_pluviometre (some dev0) none
        { State.init with pluviometre_ticks := 234560 }).data = none ∧
    (65535 : ℚ) < (234560 : ℚ) * 0.2794 := by
  decide!

/-- C7 (amended): on a non-null device the rain read returns `SEN15901_OK` for every rain
count; it reads no clock, and two states with the same rain count store the same value
whatever their other fields (last event times, time of the last speed read, speed count).
For every rain count `c` below 234560 the stored value is the integer part of `c * 0.2794`,
less one at the fourteen counts 25000, 50000, 55000, 100000, 105000, 110000, 115000, 200000,
205000, 210000, 215000, 220000, 225000 and 230000, where the `double` product falls just
short of the whole number `c * 0.2794`. -/
theorem rain_read_value (dev dev' : sen15901_t) (data data' : Option Nat) (s s' : State) :
    (sen15901_get_pluviometre (some dev) data s).ret = SEN15901_OK ∧
    (s'.pluviometre_ticks = s.pluviometre_ticks →
      (sen15901_get_pluviometre (some dev') data' s').data
        = (sen15901_get_pluviometre (some dev) data s).data) ∧
    (s.pluviometre_ticks < 234560 →
      (sen15901_get_pluviometre (some dev) data s).data
        = some (s.pluviometre_ticks * 2794 / 10000 -
            (if s.pluviometre_ticks ∈ [25000, 50000, 55000, 100000, 105000, 110000, 115000,
                200000, 205000, 210000, 215000, 220000, 225000, 230000] then 1 else 0))) := by
  refine ⟨rfl, fun h => ?_, fun hc => ?_⟩
  · simp only [sen15901_get_pluviometre, h]
  · by_cases h5 : 5000 ∣ s.pluviometre_ticks
    · obtain ⟨m, hm⟩ := h5
      have hm47 : m < 47 := by omega
      have hval := rain_read_multiples_of_5000 m hm47
      simp only [sen15901_get_pluviometre, hm]
      exact hval
    · have hnot : s.pluviometre_ticks ∉ [25000, 50000, 55000, 100000, 105000, 110000, 115000,
          200000, 205000, 210000, 215000, 220000, 225000, 230000] := by
        intro hmem
        apply h5
        simp only [List.mem_cons, List.mem_singleton, List.not_mem_nil, or_false] at hmem
        omega
      rw [if_neg hnot, Nat.sub_zero]
      exact rain_read_truncates dev data s hc h5

/-- Witness of C7: two states with rain count 25000 and different timestamps store the same
value 6984, one less than the integer part of 6985. -/
theorem rain_read_value_witness :
    ({ State.init with pluviometre_ticks := 25000, last_anemometre_call := 77 } :
        State).pluviometre_ticks
      = ({ State.init with pluviometre_ticks := 25000 } : State).pluviometre_ticks ∧
    ({ State.init with pluviometre_ticks := 25000 } : State).pluviometre_ticks < 234560 ∧
    (sen15901_get_pluviometre (some dev0) (some 9)
        { State.init with pluviometre_ticks := 25000, last_anemometre_call := 77 }).data
      = (sen15901_get_pluviometre (some dev0) none
          { State.init with pluviometre_ticks := 25000 }).data ∧
    (sen15901_get_pluviometre (some dev0) none
        { State.init with pluviometre_ticks := 25000 }).data = some 6984 :=
  ⟨rfl, by decide,
    (rain_read_value dev0 dev0 none (some 9) { State.init with pluviometre_ticks := 25000 }
      { State.init with pluviometre_ticks := 25000, last_anemometre_call := 77 }).2.1 rfl,
    (rain_read_value dev0 dev0 none (some 9) { State.init with pluviometre_ticks := 25000 }
      { State.init with pluviometre_ticks := 25000, last_anemometre_call := 77 }).2.2
      (by decide)⟩

/-! ## Direction decoder -/

/-- C4 (as stated): for the table entry of index 1 the decoder stores 22, and twice 22 is
not 45: the stored direction is not 22.5. A sample of 1624.06 gives the same 22. -/
theorem direction_not_22_5 :
    sen15901_get_girouette (adc_values.getD 1 0) = (SEN15901_OK, some 22) ∧
    sen15901_get_girouette 1624.06 = (SEN15901_OK, some 22) ∧
    ((22 : Nat) : ℚ) ≠ 1 * 22.5 := by
  decide!

/-- C4 (amended): for every index `k` of the table, a sample equal to `adc_values[k]` makes
the decoder return `SEN15901_OK` and store the integer part of `k * 22.5`, that is
`45 * k / 2` rounded down (0, 22, 45, 67, 90, ...); a sample of 3143.44 stores 0 and a
sample of 1624.06 stores 22. -/
theorem direction_of_table_entry (k : Nat) (hk : k < 16) :
    sen15901_get_girouette (adc_values.getD k 0) = (SEN15901_OK, some (45 * k / 2)) ∧
    sen15901_get_girouette 3143.44 = (SEN15901_OK, some 0) ∧
    sen15901_get_girouette 1624.06 = (SEN15901_OK, some 22) := by
  revert k
  decide!

/-- Witness of C4: the table entry of index 3 gives 67, the integer part of 67.5. -/
theorem direction_of_table_entry_witness :
    (3 : Nat) < 16 ∧
    (sen15901_get_girouette (adc_values.getD 3 0) = (SEN15901_OK, some (45 * 3 / 2)) ∧
    sen15901_get_girouette 3143.44 = (SEN15901_OK, some 0) ∧
    sen15901_get_girouette 1624.06 = (SEN15901_OK, some 22)) :=
  ⟨by decide, direction_of_table_entry 3 (by decide)⟩

theorem argmin_fold (f : Nat → ℚ) (b : ℚ) (n : Nat) :
    ((List.range n).foldl (fun acc i => if f i < acc.1 then (f i, i) else acc) (b, 0) = (b, 0) ∧
        ∀ j, j < n → b ≤ f j) ∨
      (((List.range n).foldl (fun acc i => if f i < acc.1 then (f i, i) else acc) (b, 0)).2 < n ∧
        ((List.range n).foldl (fun acc i => if f i < acc.1 then (f i, i) else acc) (b, 0)).1
          = f ((List.range n).foldl (fun acc i => if f i < acc.1 then (f i, i) else acc) (b, 0)).2 ∧
        ((List.range n).foldl (fun acc i => if f i < acc.1 then (f i, i) else acc) (b, 0)).1 < b ∧
        (∀ j, j < n →
          ((List.range n).foldl (fun acc i => if f i < acc.1 then (f i, i) else acc) (b, 0)).1
            ≤ f j) ∧
        ∀ j, j < ((List.range n).foldl (fun acc i => if f i < acc.1 then (f i, i) else acc) (b, 0)).2 →
          ((List.range n).foldl (fun acc i => if f i < acc.1 then (f i, i) else acc) (b, 0)).1
            < f j) := by
  induction n with
  | zero =>
    left
    exact ⟨rfl, fun j hj => absurd hj (Nat.not_lt_zero j)⟩
  | succ n ih =>
    rw [List.range_succ, List.foldl_append, List.foldl_cons, List.foldl_nil]
    generalize (List.range n).foldl (fun acc i => if f i < acc.1 then (f i, i) else acc) (b, 0)
      = r at ih
    by_cases hlt : f n < r.1
    · rw [if_pos hlt]
      right
      simp only
      rcases ih with ⟨h1, h2⟩ | ⟨h1, h2, h3, h4, h5⟩
      · rw [h1] at hlt
        refine ⟨Nat.lt_succ_self n, trivial, hlt, fun j hj => ?_, fun j hj => ?_⟩
        · rcases Nat.lt_succ_iff_lt_or_eq.mp hj with hj | rfl
          · exact le_trans hlt.le (h2 j hj)
          · exact le_refl _
        · exact lt_of_lt_of_le hlt (h2 j hj)
      · refine ⟨Nat.lt_succ_self n, trivial, lt_trans hlt h3, fun j hj => ?_, fun j hj => ?_⟩
        · rcases Nat.lt_succ_iff_lt_or_eq.mp hj with hj | rfl
          · exact le_trans hlt.le (h4 j hj)
          · exact le_refl _
        · exact lt_of_lt_of_le hlt (h4 j hj)
    · rw [if_neg hlt]
      rcases ih with ⟨h1, h2⟩ | ⟨h1, h2, h3, h4, h5⟩
      · left
        refine ⟨h1, fun j hj => ?_⟩
        rcases Nat.lt_succ_iff_lt_or_eq.mp hj with hj | rfl
        · exact h2 j hj
        · rw [h1] at hlt
          exact not_lt.mp hlt
      · right
        refine ⟨Nat.lt_succ_of_lt h1, h2, h3, fun j hj => ?_, h5⟩
        rcases Nat.lt_succ_iff_lt_or_eq.mp hj with hj | rfl
        · exact h4 j hj
        · exact not_lt.mp hlt

theorem f32_4095 : f32 4095 = 4095 := by decide!

theorem girouette_index_spec (mesure : ℚ) :
    (girouette_index mesure = 0 ∧ ∀ j, j < 16 → 4095 ≤ ADC_dif mesure j) ∨
      (girouette_index mesure < 16 ∧
        ADC_dif mesure (girouette_index mesure) < 4095 ∧
        (∀ j, j < 16 → ADC_dif mesure (girouette_index mesure) ≤ ADC_dif mesure j) ∧
        ∀ j, j < girouette_index mesure →
          ADC_dif mesure (girouette_index mesure) < ADC_dif mesure j) := by
  have h := argmin_fold (ADC_dif mesure) (f32 4095) 16
  have hstep : girouette_step mesure
      = fun acc i => if ADC_dif mesure i < acc.1 then (ADC_dif mesure i, i) else acc := by
    funext acc i
    rfl
  unfold girouette_index
  rw [hstep]
  rw [f32_4095] at h ⊢
  rcases h with ⟨h1, h2⟩ | ⟨h1, h2, h3, h4, h5⟩
  · left
    exact ⟨by rw [h1], h2⟩
  · right
    exact ⟨h1, by rw [← h2]; exact h3, fun j hj => by rw [← h2]; exact h4 j hj,
      fun j hj => by rw [← h2]; exact h5 j hj⟩

theorem direction_of_index : ∀ i : Nat, i < 16 →
    to_uint16 (some (f32 (f32 (i : ℚ) * angle_resolution))) = some (45 * i / 2) := by
  decide!

/-- The sixteen table entries as exact fractions: the `float` values of the initialiser,
all multiples of `2 ^ (-15)`. -/
theorem adc_values_exact :
    adc_values =
      [103004304 / 32768, 53217288 / 32768, 60471724 / 32768, 10980442 / 32768,
        12201612 / 32768, 8639764 / 32768, 24203196 / 32768, 16586065 / 32768,
        37658212 / 32768, 32073338 / 32768, 82595528 / 32768, 78571904 / 32768,
        123893288 / 32768, 108466056 / 32768, 116298136 / 32768, 92116808 / 32768] ∧
    angle_resolution = 45 / 2 ∧
    ANEMOMETRE_SPEED_FOR_1_TICK_PER_SEC = 5404319552844595 / 2251799813685248 ∧
    PLUVIOMETRE_MM_BY_TICK = 2516611471774633 / 9007199254740992 := by
  decide!

theorem f32_rel_err (q : ℚ) : |f32 q - q| ≤ |q| / 10 ^ 7 := by
  by_cases hq : q = 0
  · subst hq
    simp [f32, fround_zero]
  · have herr := fround_err 24 hq
    have h24 : (2 : ℚ) ^ (-((24 : ℕ) : ℤ)) ≤ 1 / 10 ^ 7 := by
      rw [zpow_neg, zpow_natCast]
      norm_num
    have hmul : |q| * (2 : ℚ) ^ (-((24 : ℕ) : ℤ)) ≤ |q| * (1 / 10 ^ 7) :=
      mul_le_mul_of_nonneg_left h24 (abs_nonneg q)
    have e : |q| * (1 / 10 ^ 7) = |q| / 10 ^ 7 := by ring
    rw [e] at hmul
    unfold f32
    exact le_trans herr hmul

theorem ADC_dif_eq_abs (mesure : ℚ) (i : Nat) :
    ADC_dif mesure i = |f32 (adc_values.getD i 0 - mesure)| := by
  unfold ADC_dif
  simp only
  split_ifs with h
  · rw [abs_of_neg h]
  · rw [abs_of_nonneg (not_lt.mp h)]

theorem adc_values_zero_bounds :
    (3143 : ℚ) < adc_values.getD 0 0 ∧ adc_values.getD 0 0 < 3144 := by
  decide!

theorem sample_12bit_in_reach (sample : ℚ) (h0 : 0 ≤ sample) (h1 : sample ≤ 4095) :
    ∃ j, j < 16 ∧ ADC_dif (f32 sample) j < 4095 := by
  refine ⟨0, by decide, ?_⟩
  rw [ADC_dif_eq_abs]
  obtain ⟨ha1, ha2⟩ := adc_values_zero_bounds
  have hm := f32_rel_err sample
  rw [abs_of_nonneg h0, abs_le] at hm
  have hd := f32_rel_err (adc_values.getD 0 0 - f32 sample)
  have hdb : |adc_values.getD 0 0 - f32 sample| ≤ 3145 := by
    rw [abs_le]
    constructor <;> linarith [hm.1, hm.2]
  have hfd : |f32 (adc_values.getD 0 0 - f32 sample)|
      ≤ |adc_values.getD 0 0 - f32 sample| + |adc_values.getD 0 0 - f32 sample| / 10 ^ 7 := by
    have := abs_sub_abs_le_abs_sub (f32 (adc_values.getD 0 0 - f32 sample))
      (adc_values.getD 0 0 - f32 sample)
    linarith
  linarith

theorem adc_values_range :
    ∀ j : Nat, j < 16 → 0 ≤ adc_values.getD j 0 ∧ adc_values.getD j 0 ≤ 4095 := by
  decide!

theorem adc_values_apart :
    ∀ i : Nat, i < 16 → ∀ j : Nat, j < 16 → i ≠ j →
      1 ≤ |adc_values.getD i 0 - adc_values.getD j 0| := by
  decide!

theorem adc_values_sum_off_even :
    ∀ i : Nat, i < 16 → ∀ j : Nat, j < 16 → i ≠ j →
      2 * (⌊(adc_values.getD i 0 + adc_values.getD j 0) / 2⌋ : ℚ) + 1 / 200
          ≤ adc_values.getD i 0 + adc_values.getD j 0 ∧
        adc_values.getD i 0 + adc_values.getD j 0
          ≤ 2 * (⌊(adc_values.getD i 0 + adc_values.getD j 0) / 2⌋ : ℚ) + 2 - 1 / 200 := by
  decide!

theorem exact_dif_gap {i j : Nat} (hi : i < 16) (hj : j < 16) (hij : i ≠ j) (m : Nat) :
    1 / 200 ≤ |(|adc_values.getD i 0 - m| - |adc_values.getD j 0 - m|)| := by
  have h1 := adc_values_apart i hi j hj hij
  obtain ⟨h2, h3⟩ := adc_values_sum_off_even i hi j hj hij
  generalize adc_values.getD i 0 = a at *
  generalize adc_values.getD j 0 = b at *
  generalize ⌊(a + b) / 2⌋ = k at *
  have hmk : (m : ℤ) ≤ k ∨ k + 1 ≤ (m : ℤ) := by omega
  have hmkq : ((m : ℤ) : ℚ) ≤ (k : ℚ) ∨ (k : ℚ) + 1 ≤ ((m : ℤ) : ℚ) := by
    rcases hmk with h | h
    · left; exact_mod_cast h
    · right; exact_mod_cast h
  rw [Int.cast_natCast] at hmkq
  rcases abs_cases (a - m) with ⟨e1, s1⟩ | ⟨e1, s1⟩ <;>
    rcases abs_cases (b - m) with ⟨e2, s2⟩ | ⟨e2, s2⟩ <;>
    rcases abs_cases (a - b) with ⟨e3, s3⟩ | ⟨e3, s3⟩ <;>
    rw [e1, e2] <;> rw [e3] at h1 <;>
    rw [le_abs] <;> rcases hmkq with h | h <;>
    first
      | (left; linarith)
      | (right; linarith)

theorem computed_near_exact {j : Nat} (hj : j < 16) {m : Nat} (hm : m ≤ 4095) :
    |ADC_dif (m : ℚ) j - abs (adc_values.getD j 0 - m)| ≤ 1 / 2000 := by
  obtain ⟨h1, h2⟩ := adc_values_range j hj
  have hmq : (m : ℚ) ≤ 4095 := by exact_mod_cast hm
  have hm0 : (0 : ℚ) ≤ m := Nat.cast_nonneg m
  have hb : |adc_values.getD j 0 - m| ≤ 4095 := by
    rw [abs_le]
    constructor <;> linarith
  have he := f32_rel_err (adc_values.getD j 0 - m)
  have ht := abs_abs_sub_abs_le_abs_sub (f32 (adc_values.getD j 0 - m)) (adc_values.getD j 0 - m)
  rw [ADC_dif_eq_abs]
  linarith

theorem girouette_nearest_exact (m : Nat) (hm : m ≤ 4095) :
    girouette_index (f32 (m : ℚ)) < 16 ∧
    (∀ j, j < 16 →
      |adc_values.getD (girouette_index (f32 (m : ℚ))) 0 - m| ≤ |adc_values.getD j 0 - m|) ∧
    (∀ j, j < girouette_index (f32 (m : ℚ)) →
      |adc_values.getD (girouette_index (f32 (m : ℚ))) 0 - m| < |adc_values.getD j 0 - m|) := by
  have hreach := sample_12bit_in_reach (m : ℚ) (Nat.cast_nonneg m) (by exact_mod_cast hm)
  have hfm : f32 (m : ℚ) = m := fround_natCast 24 m (lt_of_le_of_lt hm (by norm_num))
  rw [hfm] at hreach ⊢
  rcases girouette_index_spec (m : ℚ) with ⟨_, h2⟩ | ⟨h1, _, h3, h4⟩
  · obtain ⟨j, hj, hlt⟩ := hreach
    exact absurd hlt (not_lt.mpr (h2 j hj))
  · generalize girouette_index (m : ℚ) = i at *
    have hi := computed_near_exact h1 hm
    rw [abs_le] at hi
    refine ⟨h1, fun j hj => ?_, fun j hj => ?_⟩
    · by_cases hij : i = j
      · rw [hij]
      · have hg := exact_dif_gap h1 hj hij m
        have hjn := computed_near_exact hj hm
        rw [abs_le] at hjn
        have hc := h3 j hj
        rw [le_abs] at hg
        rcases hg with hg | hg
        · linarith [hi.1, hi.2, hjn.1, hjn.2]
        · linarith
    · have hj16 : j < 16 := lt_trans hj h1
      have hij : i ≠ j := fun h => absurd hj (by rw [h]; exact lt_irrefl j)
      have hg := exact_dif_gap h1 hj16 hij m
      have hjn := computed_near_exact hj16 hm
      rw [abs_le] at hjn
      have hc := h4 j hj
      rw [le_abs] at hg
      rcases hg with hg | hg
      · linarith [hi.1, hi.2, hjn.1, hjn.2]
      · linarith

/-- C3 (as stated): for a sample of 8000 the decoder leaves the index at 0 and stores
direction 0, although entry 12 is nearer than entry 0, in the computed and in the exact
differences: no entry lies within the initial bound 4095 of the sample. -/
theorem far_sample_keeps_index_zero :
    girouette_index (f32 8000) = 0 ∧
    sen15901_get_girouette 8000 = (SEN15901_OK, some 0) ∧
    ADC_dif (f32 8000) 12 < ADC_dif (f32 8000) 0 ∧
    |adc_values.getD 12 0 - 8000| < |adc_values.getD 0 0 - 8000| := by
  decide!

/-- C3 (amended): for every sample whose computed difference to at least one table entry
is below the initial bound 4095, the decoder selects an index `i` in 0..15 whose computed
absolute difference `ADC_dif` (the single-precision `|adc_values[i] - mesure|` of the search
loop) is at most that of every entry and strictly below that of every entry of lower index;
it returns `SEN15901_OK` and stores the integer part of `i * 22.5`. For every integer sample
in 0..4095 the selected index moreover minimises the exact `|adc_values[i] - sample|`, which
is strictly below that of every entry of lower index. -/
theorem girouette_selects_nearest :
    (∀ sample : ℚ, (∃ j, j < 16 ∧ ADC_dif (f32 sample) j < 4095) →
      girouette_index (f32 sample) < 16 ∧
      (∀ j, j < 16 →
        ADC_dif (f32 sample) (girouette_index (f32 sample)) ≤ ADC_dif (f32 sample) j) ∧
      (∀ j, j < girouette_index (f32 sample) →
        ADC_dif (f32 sample) (girouette_index (f32 sample)) < ADC_dif (f32 sample) j) ∧
      sen15901_get_girouette sample
        = (SEN15901_OK, some (45 * girouette_index (f32 sample) / 2))) ∧
    (∀ m : Nat, m ≤ 4095 →
      girouette_index (f32 (m : ℚ)) < 16 ∧
      (∀ j, j < 16 →
        |adc_values.getD (girouette_index (f32 (m : ℚ))) 0 - m| ≤ |adc_values.getD j 0 - m|) ∧
      (∀ j, j < girouette_index (f32 (m : ℚ)) →
        |adc_values.getD (girouette_index (f32 (m : ℚ))) 0 - m| < |adc_values.getD j 0 - m|) ∧
      sen15901_get_girouette (m : ℚ)
        = (SEN15901_OK, some (45 * girouette_index (f32 (m : ℚ)) / 2))) := by
  have key : ∀ sample : ℚ, (∃ j, j < 16 ∧ ADC_dif (f32 sample) j < 4095) →
      girouette_index (f32 sample) < 16 ∧
      (∀ j, j < 16 →
        ADC_dif (f32 sample) (girouette_index (f32 sample)) ≤ ADC_dif (f32 sample) j) ∧
      (∀ j, j < girouette_index (f32 sample) →
        ADC_dif (f32 sample) (girouette_index (f32 sample)) < ADC_dif (f32 sample) j) ∧
      sen15901_get_girouette sample
        = (SEN15901_OK, some (45 * girouette_index (f32 sample) / 2)) := by
    intro sample h
    rcases girouette_index_spec (f32 sample) with ⟨_, h2⟩ | ⟨h1, _, h3, h4⟩
    · obtain ⟨j, hj, hlt⟩ := h
      exact absurd hlt (not_lt.mpr (h2 j hj))
    · refine ⟨h1, h3, h4, ?_⟩
      unfold sen15901_get_girouette
      simp only
      rw [direction_of_index _ h1]
  refine ⟨key, fun m hm => ?_⟩
  obtain ⟨e1, e2, e3⟩ := girouette_nearest_exact m hm
  exact ⟨e1, e2, e3,
    (key m (sample_12bit_in_reach (m : ℚ) (Nat.cast_nonneg m) (by exact_mod_cast hm))).2.2.2⟩

/-- Witness of C3: the sample 2000 is within 4095 of entry 0, and is an integer
in 0..4095. -/
theorem girouette_selects_nearest_witness :
    (∃ j, j < 16 ∧ ADC_dif (f32 2000) j < 4095) ∧
    (2000 : Nat) ≤ 4095 ∧
    (girouette_index (f32 2000) < 16 ∧
      (∀ j, j < 16 →
        ADC_dif (f32 2000) (girouette_index (f32 2000)) ≤ ADC_dif (f32 2000) j) ∧
      (∀ j, j < girouette_index (f32 2000) →
        ADC_dif (f32 2000) (girouette_index (f32 2000)) < ADC_dif (f32 2000) j) ∧
      sen15901_get_girouette 2000
        = (SEN15901_OK, some (45 * girouette_index (f32 2000) / 2))) ∧
    (girouette_index (f32 ((2000 : Nat) : ℚ)) < 16 ∧
      (∀ j, j < 16 →
        |adc_values.getD (girouette_index (f32 ((2000 : Nat) : ℚ))) 0 - (2000 : Nat)|
          ≤ |adc_values.getD j 0 - (2000 : Nat)|) ∧
      (∀ j, j < girouette_index (f32 ((2000 : Nat) : ℚ)) →
        |adc_values.getD (girouette_index (f32 ((2000 : Nat) : ℚ))) 0 - (2000 : Nat)|
          < |adc_values.getD j 0 - (2000 : Nat)|) ∧
      sen15901_get_girouette ((2000 : Nat) : ℚ)
        = (SEN15901_OK, some (45 * girouette_index (f32 ((2000 : Nat) : ℚ)) / 2))) :=
  ⟨⟨0, by decide, by decide!⟩, by decide,
    girouette_selects_nearest.1 2000 ⟨0, by decide, by decide!⟩,
    girouette_selects_nearest.2 2000 (by decide)⟩

end Sen15901
